import Mathlib

/-!
Shallow embedding of the email-to-card pipeline of `gmail_to_sheets.py`
(the Streamlit Gmail → Trello automation).  Pure string manipulation is
translated directly; the external HTTP collaborators (Gmail fetch, LLM
completion, URL download, Trello card/attachment API) are modelled as
oracle fields of an `Env` record, and every external call the pipeline
performs is recorded in an event trace so that claims about which calls
happen (and in what order) can be stated and proved.
-/

namespace GmailAgent

/-! ### String helpers (List-Char based, so everything reduces by decide) -/

/-- Lowercase every character, modelling Python `str.lower()` on ASCII input. -/
def lowerStr (s : String) : String := String.mk (s.data.map Char.toLower)

/-- Whether `needle` is a leading segment of `hay`. -/
def listHasPre (needle hay : List Char) : Bool :=
  match needle, hay with
  | [], _ => true
  | _ :: _, [] => false
  | a :: as, b :: bs => a == b && listHasPre as bs

/-- Whether `needle` occurs contiguously anywhere in `hay`
(Python `needle in hay` on strings). -/
def listHasSub (hay needle : List Char) : Bool :=
  match hay with
  | [] => needle.isEmpty
  | _ :: t => listHasPre needle hay || listHasSub t needle

/-- Python substring test `needle in hay`. -/
def containsSub (hay needle : String) : Bool := listHasSub hay.data needle.data

/-- Whether `s` starts with `p`. -/
def startsWithStr (s p : String) : Bool := listHasPre p.data s.data

/-- Python `str.strip()`: drop whitespace from both ends. -/
def trimStr (s : String) : String :=
  String.mk (((s.data.dropWhile Char.isWhitespace).reverse.dropWhile Char.isWhitespace).reverse)

/-- Python `sep.join(parts)`. -/
def joinWith (sep : String) : List String → String
  | [] => ""
  | a :: rest => rest.foldl (fun acc x => acc ++ sep ++ x) a

/-- Membership test in the processed-id list (Python `mid in processed_ids`). -/
def hasId (l : List String) (a : String) : Bool :=
  match l with
  | [] => false
  | b :: t => a == b || hasId t a

/-! ### Pure source functions -/

/-- Source `clean_subject`: `re.sub(r"^(fwd:|fw:|re:)\s*", "", subject,
flags=re.IGNORECASE).strip()`.  The pattern is anchored at the start of
the string, so `re.sub` can replace at most one occurrence: the leading
reply/forward marker (with its trailing whitespace) is removed once and
the result is stripped. -/
def clean_subject (subject : String) : String :=
  let ls := lowerStr subject
  let stripN (n : Nat) : String := String.mk ((subject.data.drop n).dropWhile Char.isWhitespace)
  if startsWithStr ls "fwd:" then trimStr (stripN 4)
  else if startsWithStr ls "fw:" then trimStr (stripN 3)
  else if startsWithStr ls "re:" then trimStr (stripN 3)
  else trimStr subject

/-- Source: `re.sub(r"[^\w\s\-_.]", "", project_name).strip().replace(" ", "_")[:120]
or "project"` — keep word/space/dash/dot characters, strip, underscore the
spaces, truncate to 120 characters, with a fixed fallback when empty. -/
def cleanProjectName (pn : String) : String :=
  let kept := String.mk (pn.data.filter
    (fun c => c.isAlphanum || c = '_' || c.isWhitespace || c = '-' || c = '.'))
  let s := String.mk (((trimStr kept).data.map (fun c => if c = ' ' then '_' else c)).take 120)
  if s = "" then "project" else s

/-- The fixed extension allow-list used by the URL routing decision. -/
def allowedExts : List String :=
  [".pdf", ".png", ".jpg", ".jpeg", ".zip", ".doc", ".docx", ".xls", ".xlsx"]

/-- Source routing predicate:
`any(ext in u.lower() for ext in [...]) or "dropbox.com" in u.lower()`.
Each extension is tested as a substring of the lowercased URL, not as a
suffix. -/
def shouldDownload (u : String) : Bool :=
  allowedExts.any (fun ext => containsSub (lowerStr u) ext) ||
    containsSub (lowerStr u) "dropbox.com"

/-- Characters that terminate a URL match in the body-scan pattern
`https?://[^\s'\"<>]+`. -/
def urlStopChar (c : Char) : Bool :=
  c.isWhitespace || c = '\'' || c = '"' || c = '<' || c = '>'

/-- One attempted match of `https?://[^\s'\"<>]+` at the head of `cs`:
on success returns the matched characters and the remaining input. -/
def urlMatchAt (cs : List Char) : Option (List Char × List Char) :=
  let tryPre (p : String) : Option (List Char × List Char) :=
    if listHasPre p.data cs then
      let rest := cs.drop p.data.length
      let body := rest.takeWhile (fun c => !urlStopChar c)
      if body.isEmpty then none
      else some (p.data ++ body, rest.drop body.length)
    else none
  match tryPre "https://" with
  | some r => some r
  | none => tryPre "http://"

/-- Fuel-indexed left-to-right scan implementing
`re.findall(r"https?://[^\s'\"<>]+", text)`; the fuel (initialised to the
input length, which bounds the number of scan steps) only serves
termination. -/
def findUrlsFuel : Nat → List Char → List String
  | 0, _ => []
  | _, [] => []
  | fuel + 1, c :: rest =>
    match urlMatchAt (c :: rest) with
    | some (m, rem) => String.mk m :: findUrlsFuel fuel rem
    | none => findUrlsFuel fuel rest

/-- URL candidates scanned out of the body text. -/
def findUrls (s : String) : List String := findUrlsFuel s.data.length s.data

/-! ### Data model -/

/-- The classifier's parsed JSON output (`ProjectRecord`).  Absent or
empty string fields are both modelled as `""`, matching Python falsiness
under `or`. -/
structure ParsedRecord where
  is_project : Bool
  project_name : String
  client_name : String
  instructions : String
  due_date : String
  file_links : List String
  deriving DecidableEq, Repr

/-- Outcome of one `analyze_and_extract` call: either a parsed record or
the stringified exception (`(None, str(e))`). -/
inductive ClassifyResult where
  | ok (pr : ParsedRecord)
  | err (msg : String)
  deriving DecidableEq, Repr

/-- One MIME part of the fetched payload.  `textContent` is the decoded
(and, for HTML, tag-stripped) text contribution of a text part, `none`
when the part has no data or its decode fails (swallowed in the source). -/
structure Part where
  filename : String
  attachmentId : Option String
  textContent : Option String
  deriving DecidableEq, Repr

/-- One fetched mailbox message as assembled by `fetch_inbox_last_24h`. -/
structure Message where
  id : String
  subject : String
  sender : String
  date : String
  snippet : String
  parts : List Part
  deriving DecidableEq, Repr

/-- Oracles for the external collaborators.  `classify mid attempt` is the
outcome of the first (`0`) or retry (`1`) classifier call for a message;
`urlFetch u = (true, filename)` models a 200 download with the derived
filename, `(false, reason)` a failure; `gmailFetch`, `createCard`,
`attachFile`, `attachUrl` model the corresponding HTTP endpoints, each
returning the source's `(ok, payload)` pair. -/
structure Env where
  classify : String → Nat → ClassifyResult
  urlFetch : String → Bool × String
  gmailFetch : String → String → Bool × String
  createCard : String → String → Bool × String
  attachFile : String → String → Bool × String
  attachUrl : String → String → Bool × String
  serviceAvailable : Bool
  cwd : String
  delaySeconds : Nat

/-- Observable actions of one pass, recorded in program order. -/
inductive Event where
  | classifyCall (mid : String) (attempt : Nat)
  | sleepEvt (secs : Nat)
  | gmailAttachmentCall (mid attId : String)
  | downloadCall (url : String)
  | mkdirCall (path : String)
  | createCardCall (title desc : String)
  | attachFileCall (cardId path : String)
  | attachUrlCall (cardId url : String)
  | logEvt (msg : String)
  deriving DecidableEq, Repr

/-- The per-pass counters of `process_emails_once`. -/
structure Summary where
  fetched : Nat
  parsed : Nat
  inserted : Nat
  skipped : Nat
  errors : Nat
  deriving DecidableEq, Repr

/-- Summary and trace threaded through the body of one message iteration. -/
structure MState where
  summary : Summary
  trace : List Event
  deriving Repr

/-- Full pass state: the session dedup list plus summary and trace. -/
structure PassState where
  processedIds : List String
  summary : Summary
  trace : List Event
  deriving Repr

/-! ### Event classification helpers -/

/-- Whether an event is a classifier invocation. -/
def isClassifyCall : Event → Bool
  | Event.classifyCall _ _ => true
  | _ => false

/-- Whether an event is a Trello board-client call. -/
def isBoardCall : Event → Bool
  | Event.createCardCall _ _ => true
  | Event.attachFileCall _ _ => true
  | Event.attachUrlCall _ _ => true
  | _ => false

/-- Whether an event is an attachment or link download attempt. -/
def isFetchCall : Event → Bool
  | Event.downloadCall _ => true
  | Event.gmailAttachmentCall _ _ => true
  | _ => false

/-- Whether an event is a staging-folder creation. -/
def isMkdirCall : Event → Bool
  | Event.mkdirCall _ => true
  | _ => false

/-- Whether an event is a card URL-attachment call. -/
def isAttachUrlEvt : Event → Bool
  | Event.attachUrlCall _ _ => true
  | _ => false

/-- Whether an event is a card file-attachment call. -/
def isAttachFileEvt : Event → Bool
  | Event.attachFileCall _ _ => true
  | _ => false

/-- Whether an event is a log line. -/
def isLogEvt : Event → Bool
  | Event.logEvt _ => true
  | _ => false

/-- Whether an event is a classifier invocation for message `mid`. -/
def isClassifyCallFor (mid : String) : Event → Bool
  | Event.classifyCall m _ => m == mid
  | _ => false

/-- Number of classifier calls recorded for message `mid`. -/
def countClassifyCalls (mid : String) (tr : List Event) : Nat :=
  (tr.filter (isClassifyCallFor mid)).length

/-! ### Pipeline -/

/-- Body text assembly (lines 274-291): the snippet followed by each
decoded text part, newline separated; undecodable parts contribute
nothing. -/
def bodyTextOf (m : Message) : String :=
  m.parts.foldl
    (fun acc p =>
      match p.textContent with
      | some t => acc ++ "\n" ++ t
      | none => acc)
    m.snippet

/-- The prompt text handed to the classifier (line 293). -/
def emailTextOf (m : Message) : String :=
  "Subject: " ++ m.subject ++ "\nFrom: " ++ m.sender ++ "\nDate: " ++ m.date ++
    "\n\n" ++ bodyTextOf m

/-- One iteration of the Gmail-attachment loop (lines 334-344): a part is
fetched when it has a filename, an attachment id, and the Gmail service is
available; success stages `folder/filename`, failure only logs.  Returns
the recorded events and the staged paths. -/
def fetchGmailPart (env : Env) (mid folder : String) (p : Part) : List Event × List String :=
  match p.attachmentId with
  | some attId =>
      if p.filename != "" && env.serviceAvailable then
        match env.gmailFetch mid attId with
        | (true, _) =>
            ([Event.gmailAttachmentCall mid attId,
              Event.logEvt ("Saved attachment: " ++ (folder ++ "/" ++ p.filename))],
             [folder ++ "/" ++ p.filename])
        | (false, r) =>
            ([Event.gmailAttachmentCall mid attId,
              Event.logEvt ("Attachment download failed: " ++ r)],
             [])
      else ([], [])
  | none => ([], [])

/-- One iteration of the URL loop (lines 352-364): an allow-listed or
dropbox URL is downloaded — success stages the file under `folder`,
failure falls back to keeping the URL as a link; any other URL is kept as
a link with no download attempt.  Returns
`(events, staged files, kept links)`. -/
def routeUrl (env : Env) (folder u : String) : List Event × List String × List String :=
  if shouldDownload u then
    match env.urlFetch u with
    | (true, fname) =>
        ([Event.downloadCall u,
          Event.logEvt ("Downloaded link to: " ++ (folder ++ "/" ++ fname))],
         [folder ++ "/" ++ fname], [])
    | (false, r) =>
        ([Event.downloadCall u,
          Event.logEvt ("Link download failed (" ++ u ++ "): " ++ r)],
         [], [u])
  else ([], [], [u])

/-- The description lines of lines 367-376: three field sections, then —
only when `links` is non-empty — a `Links:` header with one line per
link, then the storage-folder section. -/
def descLinesOf (pr : ParsedRecord) (sender : String) (links : List String)
    (folderAbs : String) : List String :=
  let base := ["Client: " ++ (if pr.client_name = "" then sender else pr.client_name),
               "Instructions: " ++ trimStr pr.instructions,
               "Due Date: " ++ pr.due_date]
  let withLinks := if links.isEmpty then base else base ++ ("Links:" :: links)
  withLinks ++ ["Stored files folder: " ++ folderAbs]

/-- Line 377: `"\n\n".join(desc_lines)`. -/
def composeDescription (pr : ParsedRecord) (sender : String) (links : List String)
    (folderAbs : String) : String :=
  joinWith "\n\n" (descLinesOf pr sender links folderAbs)

/-- The attach phase (lines 390-411): when at least one file was staged,
every staged file is sent to the card's attachment endpoint; otherwise
every kept link is attached as a URL.  Attachment failures only log. -/
def attachPhaseEvents (env : Env) (cardId : String) (files links : List String) :
    List Event :=
  if files.isEmpty then
    links.flatMap (fun l =>
      [Event.attachUrlCall cardId l,
       Event.logEvt
         (if (env.attachUrl cardId l).1 then "Attached URL to Trello card: " ++ l
          else "Failed to attach URL to Trello: " ++ (env.attachUrl cardId l).2)])
  else
    files.flatMap (fun fp =>
      [Event.attachFileCall cardId fp,
       Event.logEvt
         (if (env.attachFile cardId fp).1 then "Attached file to Trello: " ++ fp
          else "Failed to attach file to Trello: " ++ (env.attachFile cardId fp).2)])

/-- Lines 312-416: everything after a successful classifier parse.  A
non-project message is skipped; otherwise the staging folder is created,
Gmail attachments and URLs resolved, the card composed and created, files
or links attached, and the inserted counter bumped before the inter-item
delay.  The source's sequential mutations are flattened per control path:
each branch appends one event list and applies its counter updates, in
source order. -/
def afterClassify (env : Env) (e : Message) (bodyText : String) (pr : ParsedRecord)
    (ms : MState) : MState :=
  if !pr.is_project then
    { summary := { ms.summary with skipped := ms.summary.skipped + 1 },
      trace := ms.trace ++ [Event.logEvt ("Not a project: " ++ e.subject)] }
  else
    let projectName := if pr.project_name = "" then clean_subject e.subject else pr.project_name
    let baseFolder := "data/projects/" ++ cleanProjectName projectName
    let attFolder := baseFolder ++ "/attachments"
    let gm := e.parts.map (fetchGmailPart env e.id attFolder)
    let routed := (findUrls bodyText ++ pr.file_links).map (routeUrl env attFolder)
    let files := gm.flatMap (fun r => r.2) ++ routed.flatMap (fun r => r.2.1)
    let links := routed.flatMap (fun r => r.2.2)
    let description := composeDescription pr e.sender links (env.cwd ++ "/" ++ baseFolder)
    let title := if clean_subject projectName = "" then "Unnamed Project"
                 else clean_subject projectName
    let preEvents := Event.mkdirCall attFolder ::
      (gm.flatMap (fun r => r.1) ++
        (routed.flatMap (fun r => r.1) ++ [Event.createCardCall title description]))
    match env.createCard title description with
    | (false, body) =>
        { summary := { ms.summary with errors := ms.summary.errors + 1 },
          trace := ms.trace ++
            (preEvents ++ [Event.logEvt ("Failed to create Trello card: " ++ body)]) }
    | (true, cardId) =>
        { summary := { ms.summary with inserted := ms.summary.inserted + 1 },
          trace := ms.trace ++ (preEvents ++
            (Event.logEvt ("Created Trello card: " ++ title ++ " (id=" ++ cardId ++ ")") ::
              (attachPhaseEvents env cardId files links ++
                [Event.logEvt ("Waiting " ++ toString env.delaySeconds ++
                   " seconds before next item."),
                 Event.sleepEvt env.delaySeconds]))) }

/-- Lines 273-310: classification with the single rate-shaped retry.  The
first failure increments the error counter; when the stringified error
contains `"rate"` (case-insensitively) the pipeline sleeps and retries
exactly once, a second failure incrementing the counter again and ending
the message; a non-rate failure ends the message with no retry.  As in
`afterClassify` the mutations are flattened per control path. -/
def runMessage (env : Env) (e : Message) (ms : MState) : MState :=
  let bodyText := bodyTextOf e
  match env.classify e.id 0 with
  | ClassifyResult.ok pr =>
      afterClassify env e bodyText pr
        { ms with trace := ms.trace ++ [Event.classifyCall e.id 0] }
  | ClassifyResult.err msg =>
      if containsSub (lowerStr msg) "rate" then
        match env.classify e.id 1 with
        | ClassifyResult.ok pr =>
            afterClassify env e bodyText pr
              { summary := { ms.summary with errors := ms.summary.errors + 1 },
                trace := ms.trace ++
                  [Event.classifyCall e.id 0,
                   Event.logEvt ("AI extraction error: " ++ msg),
                   Event.logEvt "Rate limit detected. Waiting then retrying extraction.",
                   Event.sleepEvt env.delaySeconds,
                   Event.classifyCall e.id 1] }
        | ClassifyResult.err m2 =>
            { summary := { ms.summary with errors := ms.summary.errors + 1 + 1 },
              trace := ms.trace ++
                [Event.classifyCall e.id 0,
                 Event.logEvt ("AI extraction error: " ++ msg),
                 Event.logEvt "Rate limit detected. Waiting then retrying extraction.",
                 Event.sleepEvt env.delaySeconds,
                 Event.classifyCall e.id 1,
                 Event.logEvt ("AI retry failed: " ++ m2)] }
      else
        { summary := { ms.summary with errors := ms.summary.errors + 1 },
          trace := ms.trace ++
            [Event.classifyCall e.id 0,
             Event.logEvt ("AI extraction error: " ++ msg)] }

/-- Lines 262-271 plus the message body: an id already in the dedup list
is skipped (skip counter only); a fresh id is added to the list, counted
as parsed, and run through `runMessage`. -/
def processMessage (env : Env) (st : PassState) (e : Message) : PassState :=
  if hasId st.processedIds e.id then
    { st with
      summary := { st.summary with skipped := st.summary.skipped + 1 },
      trace := st.trace ++ [Event.logEvt ("Already processed message id " ++ e.id ++ ": skipping")] }
  else
    let ms := runMessage env e
      { summary := { st.summary with parsed := st.summary.parsed + 1 },
        trace := st.trace ++ [Event.logEvt ("Parsing message: " ++ e.subject)] }
    { processedIds := st.processedIds ++ [e.id], summary := ms.summary, trace := ms.trace }

/-- Lines 245-418, `process_emails_once`: a failed fetch aborts the pass
with one logged error and all-zero counters; a successful fetch folds
`processMessage` over the messages, starting from the session's dedup
list and a summary whose `fetched` field is the message count. -/
def process_emails_once (env : Env) (fetched : Except String (List Message))
    (ids0 : List String) : PassState :=
  match fetched with
  | Except.error msg =>
      { processedIds := ids0,
        summary := { fetched := 0, parsed := 0, inserted := 0, skipped := 0, errors := 1 },
        trace := [Event.logEvt ("Failed to fetch emails: " ++ msg)] }
  | Except.ok emails =>
      emails.foldl (processMessage env)
        { processedIds := ids0,
          summary := { fetched := emails.length, parsed := 0, inserted := 0,
                       skipped := 0, errors := 0 },
          trace := [] }

/-! ### Helper lemmas -/

/-- Membership in the dedup list is preserved by appending. -/
theorem hasId_append_of (l l' : List String) (a : String) :
    hasId l a = true → hasId (l ++ l') a = true := by
  induction l with
  | nil => intro h; simp [hasId] at h
  | cons b t ih =>
      intro h
      simp [hasId] at h ⊢
      rcases h with h | h
      · exact Or.inl h
      · exact Or.inr (ih h)

/-- An id just appended to the dedup list is a member. -/
theorem hasId_append_self (l : List String) (a : String) : hasId (l ++ [a]) a = true := by
  induction l with
  | nil => simp [hasId]
  | cons b t ih => simp [hasId, ih]

/-- The Gmail-attachment loop records no classifier calls. -/
theorem fetchGmailPart_no_classify (env : Env) (mid folder : String) (p : Part) :
    ∀ ev ∈ (fetchGmailPart env mid folder p).1, isClassifyCall ev = false := by
  intro ev hev
  unfold fetchGmailPart at hev
  split at hev
  · split at hev
    · split at hev
      · simp at hev
        rcases hev with h | h <;> subst h <;> rfl
      · simp at hev
        rcases hev with h | h <;> subst h <;> rfl
    · simp at hev
  · simp at hev

/-- The URL loop records no classifier calls. -/
theorem routeUrl_no_classify (env : Env) (folder u : String) :
    ∀ ev ∈ (routeUrl env folder u).1, isClassifyCall ev = false := by
  intro ev hev
  unfold routeUrl at hev
  split at hev
  · split at hev
    · simp at hev
      rcases hev with h | h <;> subst h <;> rfl
    · simp at hev
      rcases hev with h | h <;> subst h <;> rfl
  · simp at hev

/-- The attach phase records no classifier calls. -/
theorem attachPhase_no_classify (env : Env) (cardId : String) (files links : List String) :
    ∀ ev ∈ attachPhaseEvents env cardId files links, isClassifyCall ev = false := by
  intro ev hev
  unfold attachPhaseEvents at hev
  split at hev
  all_goals
    rcases List.mem_flatMap.mp hev with ⟨x, _, hx⟩
  all_goals
    simp at hx
  all_goals
    rcases hx with h | h <;> subst h <;> rfl

/-- Everything after a successful parse only appends events, none of them
classifier calls. -/
theorem afterClassify_trace_shape (env : Env) (e : Message) (bt : String)
    (pr : ParsedRecord) (ms : MState) :
    ∃ extra, (afterClassify env e bt pr ms).trace = ms.trace ++ extra ∧
      ∀ ev ∈ extra, isClassifyCall ev = false := by
  unfold afterClassify
  by_cases hp : pr.is_project = true
  · simp only [hp, Bool.not_true, Bool.false_eq_true, if_false]
    split
    · refine ⟨_, rfl, ?_⟩
      intro ev hev
      simp only [List.mem_append, List.mem_cons, List.mem_singleton,
        List.not_mem_nil, or_false] at hev
      rcases hev with (h | h | h | h) | h
      · subst h; rfl
      · rcases List.mem_flatMap.mp h with ⟨r, hr, hevr⟩
        rcases List.mem_map.mp hr with ⟨p, _, hpr⟩
        exact fetchGmailPart_no_classify env e.id _ p ev (hpr ▸ hevr)
      · rcases List.mem_flatMap.mp h with ⟨r, hr, hevr⟩
        rcases List.mem_map.mp hr with ⟨u, _, hur⟩
        exact routeUrl_no_classify env _ u ev (hur ▸ hevr)
      · subst h; rfl
      · subst h; rfl
    · refine ⟨_, rfl, ?_⟩
      intro ev hev
      simp only [List.mem_append, List.mem_cons, List.mem_singleton,
        List.not_mem_nil, or_false] at hev
      rcases hev with (h | h | h | h) | (h | h | h | h)
      · subst h; rfl
      · rcases List.mem_flatMap.mp h with ⟨r, hr, hevr⟩
        rcases List.mem_map.mp hr with ⟨p, _, hpr⟩
        exact fetchGmailPart_no_classify env e.id _ p ev (hpr ▸ hevr)
      · rcases List.mem_flatMap.mp h with ⟨r, hr, hevr⟩
        rcases List.mem_map.mp hr with ⟨u, _, hur⟩
        exact routeUrl_no_classify env _ u ev (hur ▸ hevr)
      · subst h; rfl
      · subst h; rfl
      · exact attachPhase_no_classify env _ _ _ ev h
      · subst h; rfl
      · subst h; rfl
  · have hp' : pr.is_project = false := by
      cases hb : pr.is_project
      · rfl
      · exact absurd hb hp
    simp only [hp', Bool.not_false, if_true]
    refine ⟨_, rfl, ?_⟩
    intro ev hev
    simp at hev
    subst hev; rfl

/-- Classifier-call counting distributes over trace concatenation. -/
theorem countClassifyCalls_append (mid : String) (a b : List Event) :
    countClassifyCalls mid (a ++ b) =
      countClassifyCalls mid a + countClassifyCalls mid b := by
  simp [countClassifyCalls, List.filter_append]

/-- A trace without classifier calls counts zero classifier calls. -/
theorem countClassifyCalls_zero (mid : String) (tr : List Event)
    (h : ∀ ev ∈ tr, isClassifyCall ev = false) : countClassifyCalls mid tr = 0 := by
  induction tr with
  | nil => rfl
  | cons ev t ih =>
      have h1 : isClassifyCallFor mid ev = false := by
        cases ev
        case classifyCall m n =>
          have := h (Event.classifyCall m n) (by simp)
          simp [isClassifyCall] at this
        all_goals rfl
      have ht := ih (fun x hx => h x (List.mem_cons_of_mem _ hx))
      simp [countClassifyCalls, List.filter_cons, h1] at ht ⊢
      exact ht

/-- Path characterization: successful first classification. -/
theorem runMessage_ok (env : Env) (e : Message) (ms : MState) (pr : ParsedRecord)
    (h0 : env.classify e.id 0 = ClassifyResult.ok pr) :
    runMessage env e ms = afterClassify env e (bodyTextOf e) pr
      { ms with trace := ms.trace ++ [Event.classifyCall e.id 0] } := by
  simp [runMessage, h0]

/-- Path characterization: non-rate classification failure (no retry). -/
theorem runMessage_err_norate (env : Env) (e : Message) (ms : MState) (m : String)
    (h0 : env.classify e.id 0 = ClassifyResult.err m)
    (hr : containsSub (lowerStr m) "rate" = false) :
    runMessage env e ms =
      { summary := { ms.summary with errors := ms.summary.errors + 1 },
        trace := ms.trace ++
          [Event.classifyCall e.id 0,
           Event.logEvt ("AI extraction error: " ++ m)] } := by
  simp [runMessage, h0, hr]

/-- Path characterization: rate-shaped failure followed by a failed retry. -/
theorem runMessage_rate_fail (env : Env) (e : Message) (ms : MState) (m m2 : String)
    (h0 : env.classify e.id 0 = ClassifyResult.err m)
    (hr : containsSub (lowerStr m) "rate" = true)
    (h1 : env.classify e.id 1 = ClassifyResult.err m2) :
    runMessage env e ms =
      { summary := { ms.summary with errors := ms.summary.errors + 1 + 1 },
        trace := ms.trace ++
          [Event.classifyCall e.id 0,
           Event.logEvt ("AI extraction error: " ++ m),
           Event.logEvt "Rate limit detected. Waiting then retrying extraction.",
           Event.sleepEvt env.delaySeconds,
           Event.classifyCall e.id 1,
           Event.logEvt ("AI retry failed: " ++ m2)] } := by
  simp [runMessage, h0, hr, h1]

/-- Path characterization: rate-shaped failure followed by a successful
retry. -/
theorem runMessage_rate_ok (env : Env) (e : Message) (ms : MState) (m : String)
    (pr : ParsedRecord)
    (h0 : env.classify e.id 0 = ClassifyResult.err m)
    (hr : containsSub (lowerStr m) "rate" = true)
    (h1 : env.classify e.id 1 = ClassifyResult.ok pr) :
    runMessage env e ms = afterClassify env e (bodyTextOf e) pr
      { summary := { ms.summary with errors := ms.summary.errors + 1 },
        trace := ms.trace ++
          [Event.classifyCall e.id 0,
           Event.logEvt ("AI extraction error: " ++ m),
           Event.logEvt "Rate limit detected. Waiting then retrying extraction.",
           Event.sleepEvt env.delaySeconds,
           Event.classifyCall e.id 1] } := by
  simp [runMessage, h0, hr, h1]

/-- Path characterization: non-project record is only counted as skipped. -/
theorem afterClassify_notProject (env : Env) (e : Message) (bt : String)
    (pr : ParsedRecord) (ms : MState) (hp : pr.is_project = false) :
    afterClassify env e bt pr ms =
      { summary := { ms.summary with skipped := ms.summary.skipped + 1 },
        trace := ms.trace ++ [Event.logEvt ("Not a project: " ++ e.subject)] } := by
  simp [afterClassify, hp]

/-- Path characterization: project record with an always-succeeding card
endpoint bumps the inserted counter and nothing else. -/
theorem afterClassify_created (env : Env) (e : Message) (bt : String)
    (pr : ParsedRecord) (ms : MState) (cid : String)
    (hp : pr.is_project = true)
    (hcc : ∀ t d, env.createCard t d = (true, cid)) :
    (afterClassify env e bt pr ms).summary =
      { ms.summary with inserted := ms.summary.inserted + 1 } := by
  simp [afterClassify, hp, hcc]

/-- Path characterization: a fresh message id is appended to the dedup
list and the body runs on the parsed-incremented state. -/
theorem processMessage_fresh (env : Env) (st : PassState) (e : Message)
    (hfresh : hasId st.processedIds e.id = false) :
    processMessage env st e =
      { processedIds := st.processedIds ++ [e.id],
        summary := (runMessage env e
          { summary := { st.summary with parsed := st.summary.parsed + 1 },
            trace := st.trace ++
              [Event.logEvt ("Parsing message: " ++ e.subject)] }).summary,
        trace := (runMessage env e
          { summary := { st.summary with parsed := st.summary.parsed + 1 },
            trace := st.trace ++
              [Event.logEvt ("Parsing message: " ++ e.subject)] }).trace } := by
  simp [processMessage, hfresh]

/-- The events `afterClassify` appends beyond the incoming trace. -/
def afterClassifyExtra (env : Env) (e : Message) (bt : String) (pr : ParsedRecord)
    (ms : MState) : List Event :=
  (afterClassify env e bt pr ms).trace.drop ms.trace.length

/-- The trace of `afterClassify` is the incoming trace plus its extra
events. -/
theorem afterClassify_trace_decomp (env : Env) (e : Message) (bt : String)
    (pr : ParsedRecord) (ms : MState) :
    (afterClassify env e bt pr ms).trace =
      ms.trace ++ afterClassifyExtra env e bt pr ms := by
  obtain ⟨extra, htr, _⟩ := afterClassify_trace_shape env e bt pr ms
  rw [afterClassifyExtra, htr]
  simp

/-- The extra events of `afterClassify` contain no classifier calls. -/
theorem afterClassifyExtra_count_zero (env : Env) (e : Message) (bt : String)
    (pr : ParsedRecord) (ms : MState) (mid : String) :
    countClassifyCalls mid (afterClassifyExtra env e bt pr ms) = 0 := by
  obtain ⟨extra, htr, hnc⟩ := afterClassify_trace_shape env e bt pr ms
  have hx : afterClassifyExtra env e bt pr ms = extra := by
    rw [afterClassifyExtra, htr]
    simp
  rw [hx]
  exact countClassifyCalls_zero mid extra hnc

/-- Unfolding of classifier-call counting over a cons cell. -/
theorem countClassifyCalls_cons (mid : String) (ev : Event) (t : List Event) :
    countClassifyCalls mid (ev :: t) =
      (if isClassifyCallFor mid ev = true then 1 else 0) + countClassifyCalls mid t := by
  simp only [countClassifyCalls, List.filter_cons]
  split
  · simp [Nat.add_comm]
  · simp

/-- The message-body state after logging, one failed classification, and
the rate-limit sleep/retry preamble. -/
def msAfterRetry (env : Env) (st : PassState) (e : Message) (m : String) : MState :=
  { summary := { st.summary with
      parsed := st.summary.parsed + 1
      errors := st.summary.errors + 1 },
    trace := st.trace ++
      [Event.logEvt ("Parsing message: " ++ e.subject),
       Event.classifyCall e.id 0,
       Event.logEvt ("AI extraction error: " ++ m),
       Event.logEvt "Rate limit detected. Waiting then retrying extraction.",
       Event.sleepEvt env.delaySeconds,
       Event.classifyCall e.id 1] }

/-- The message-body state after logging and one successful
classification call. -/
def msAfterParse (st : PassState) (e : Message) : MState :=
  { summary := { st.summary with parsed := st.summary.parsed + 1 },
    trace := st.trace ++
      [Event.logEvt ("Parsing message: " ++ e.subject),
       Event.classifyCall e.id 0] }

/-- Path equation: fresh id, successful first classification. -/
theorem processMessage_ok_eq (env : Env) (st : PassState) (e : Message)
    (pr : ParsedRecord)
    (hfresh : hasId st.processedIds e.id = false)
    (h0 : env.classify e.id 0 = ClassifyResult.ok pr) :
    processMessage env st e =
      { processedIds := st.processedIds ++ [e.id],
        summary := (afterClassify env e (bodyTextOf e) pr (msAfterParse st e)).summary,
        trace := (afterClassify env e (bodyTextOf e) pr (msAfterParse st e)).trace } := by
  simp [processMessage, hfresh, runMessage, h0, msAfterParse, List.append_assoc]

/-- Path equation: fresh id, rate-shaped failure, successful retry. -/
theorem processMessage_rate_ok_eq (env : Env) (st : PassState) (e : Message)
    (m : String) (pr : ParsedRecord)
    (hfresh : hasId st.processedIds e.id = false)
    (h0 : env.classify e.id 0 = ClassifyResult.err m)
    (hrate : containsSub (lowerStr m) "rate" = true)
    (h1 : env.classify e.id 1 = ClassifyResult.ok pr) :
    processMessage env st e =
      { processedIds := st.processedIds ++ [e.id],
        summary := (afterClassify env e (bodyTextOf e) pr (msAfterRetry env st e m)).summary,
        trace := (afterClassify env e (bodyTextOf e) pr (msAfterRetry env st e m)).trace } := by
  simp [processMessage, hfresh, runMessage, h0, hrate, h1, msAfterRetry, List.append_assoc]

/-- Path equation: fresh id, rate-shaped failure, failed retry. -/
theorem processMessage_rate_fail_eq (env : Env) (st : PassState) (e : Message)
    (m m2 : String)
    (hfresh : hasId st.processedIds e.id = false)
    (h0 : env.classify e.id 0 = ClassifyResult.err m)
    (hrate : containsSub (lowerStr m) "rate" = true)
    (h1 : env.classify e.id 1 = ClassifyResult.err m2) :
    processMessage env st e =
      { processedIds := st.processedIds ++ [e.id],
        summary := { st.summary with
          parsed := st.summary.parsed + 1
          errors := st.summary.errors + 1 + 1 },
        trace := st.trace ++
          [Event.logEvt ("Parsing message: " ++ e.subject),
           Event.classifyCall e.id 0,
           Event.logEvt ("AI extraction error: " ++ m),
           Event.logEvt "Rate limit detected. Waiting then retrying extraction.",
           Event.sleepEvt env.delaySeconds,
           Event.classifyCall e.id 1,
           Event.logEvt ("AI retry failed: " ++ m2)] } := by
  simp [processMessage, hfresh, runMessage, h0, hrate, h1, List.append_assoc]

/-- Path equation: fresh id, non-rate failure (no retry). -/
theorem processMessage_norate_eq (env : Env) (st : PassState) (e : Message)
    (m : String)
    (hfresh : hasId st.processedIds e.id = false)
    (h0 : env.classify e.id 0 = ClassifyResult.err m)
    (hr : containsSub (lowerStr m) "rate" = false) :
    processMessage env st e =
      { processedIds := st.processedIds ++ [e.id],
        summary := { st.summary with
          parsed := st.summary.parsed + 1
          errors := st.summary.errors + 1 },
        trace := st.trace ++
          [Event.logEvt ("Parsing message: " ++ e.subject),
           Event.classifyCall e.id 0,
           Event.logEvt ("AI extraction error: " ++ m)] } := by
  simp [processMessage, hfresh, runMessage, h0, hr, List.append_assoc]

/-- An id present in the dedup list stays present across one message. -/
theorem processMessage_processedIds_mono (env : Env) (st : PassState) (e : Message)
    (mid : String) (hm : hasId st.processedIds mid = true) :
    hasId (processMessage env st e).processedIds mid = true := by
  by_cases h : hasId st.processedIds e.id = true
  · simpa [processMessage, h] using hm
  · have h' : hasId st.processedIds e.id = false := by simpa using h
    simp [processMessage, h']
    exact hasId_append_of _ _ _ hm

/-- An id present in the dedup list stays present across a whole pass. -/
theorem foldl_processedIds_mono (env : Env) (emails : List Message) (st : PassState)
    (mid : String) (hm : hasId st.processedIds mid = true) :
    hasId (emails.foldl (processMessage env) st).processedIds mid = true := by
  induction emails generalizing st with
  | nil => simpa using hm
  | cons e t ih => exact ih _ (processMessage_processedIds_mono env st e mid hm)

/-! ### Concrete fixtures used by witnesses -/

/-- A project record as the classifier could return it. -/
def recW : ParsedRecord := ⟨true, "Logo Design", "Acme", "Need a logo", "Friday", []⟩

/-- A non-project record. -/
def recNP : ParsedRecord := ⟨false, "", "", "", "", []⟩

/-- An environment whose classifier rate-fails once and then succeeds,
and whose remote endpoints all succeed. -/
def envW : Env where
  classify := fun _ n =>
    if n = 0 then ClassifyResult.err "Rate limit exceeded" else ClassifyResult.ok recW
  urlFetch := fun _ => (true, "logo.pdf")
  gmailFetch := fun _ _ => (true, "")
  createCard := fun _ _ => (true, "card1")
  attachFile := fun _ _ => (true, "ok")
  attachUrl := fun _ _ => (true, "ok")
  serviceAvailable := true
  cwd := "/app"
  delaySeconds := 30

/-- An environment whose classifier immediately returns a non-project
record. -/
def envNP : Env := { envW with classify := fun _ _ => ClassifyResult.ok recNP }

/-- An environment whose URL downloads fail with a 404. -/
def envFail : Env := { envW with urlFetch := fun _ => (false, "HTTP 404") }

/-- A concrete fetched message. -/
def msgW : Message := ⟨"m1", "Re: Logo Design", "a@b.c", "Mon", "snippet", []⟩

/-- Pass state at the start of a pass with nothing processed yet. -/
def stEmpty : PassState := ⟨[], ⟨1, 0, 0, 0, 0⟩, []⟩

/-- Pass state in which message `m1` was already processed. -/
def stSeen : PassState := ⟨["m1"], ⟨1, 0, 0, 0, 0⟩, []⟩

/-! ### Claim theorems -/

/-- C1: a message whose id is already in the processed-id set at the
start of its iteration triggers no classifier, board-client, or download
call; only the skip counter increments, by exactly one; and an id, once
in the set, is never removed — across one message and across a whole
pass. -/
theorem c1_dedup_skip_and_monotonic (env : Env) (st : PassState) (e : Message) :
    (hasId st.processedIds e.id = true →
      (processMessage env st e).summary.skipped = st.summary.skipped + 1 ∧
      (processMessage env st e).summary.inserted = st.summary.inserted ∧
      (processMessage env st e).summary.errors = st.summary.errors ∧
      ∀ ev ∈ (processMessage env st e).trace.drop st.trace.length,
        isClassifyCall ev = false ∧ isBoardCall ev = false ∧ isFetchCall ev = false) ∧
    (∀ mid, hasId st.processedIds mid = true →
      hasId (processMessage env st e).processedIds mid = true) ∧
    (∀ fetched ids0 mid, hasId ids0 mid = true →
      hasId (process_emails_once env fetched ids0).processedIds mid = true) := by
  refine ⟨?_, ?_, ?_⟩
  · intro h
    refine ⟨by simp [processMessage, h], by simp [processMessage, h],
      by simp [processMessage, h], ?_⟩
    intro ev hev
    simp [processMessage, h] at hev
    subst hev
    exact ⟨rfl, rfl, rfl⟩
  · intro mid hm
    exact processMessage_processedIds_mono env st e mid hm
  · intro fetched ids0 mid hm
    cases fetched with
    | error msg => simpa [process_emails_once] using hm
    | ok emails =>
        simp only [process_emails_once]
        exact foldl_processedIds_mono env emails _ mid hm

/-- Witness for C1 at a concrete already-processed message. -/
theorem c1_witness :
    hasId stSeen.processedIds msgW.id = true ∧
    (processMessage envW stSeen msgW).summary.skipped = stSeen.summary.skipped + 1 ∧
    (∀ mid, hasId stSeen.processedIds mid = true →
      hasId (processMessage envW stSeen msgW).processedIds mid = true) :=
  ⟨by decide,
   ((c1_dedup_skip_and_monotonic envW stSeen msgW).1 (by decide)).1,
   (c1_dedup_skip_and_monotonic envW stSeen msgW).2.1⟩

/-- C2: a successfully parsed record with `is_project` false leads to no
board call, no download, and no staging-folder creation; the message is
counted as skipped and nothing else changes. -/
theorem c2_not_project_no_action (env : Env) (st : PassState) (e : Message)
    (pr : ParsedRecord)
    (hfresh : hasId st.processedIds e.id = false)
    (hcl : env.classify e.id 0 = ClassifyResult.ok pr)
    (hp : pr.is_project = false) :
    (processMessage env st e).summary.skipped = st.summary.skipped + 1 ∧
    (processMessage env st e).summary.inserted = st.summary.inserted ∧
    (processMessage env st e).summary.errors = st.summary.errors ∧
    ∀ ev ∈ (processMessage env st e).trace.drop st.trace.length,
      isBoardCall ev = false ∧ isFetchCall ev = false ∧ isMkdirCall ev = false := by
  have hdrop : ∀ t : List Event, (st.trace ++ t).drop st.trace.length = t :=
    fun t => by simp
  rw [processMessage_ok_eq env st e pr hfresh hcl,
      afterClassify_notProject env e (bodyTextOf e) pr _ hp]
  refine ⟨by simp [msAfterParse], by simp [msAfterParse], by simp [msAfterParse], ?_⟩
  intro ev hev
  simp [msAfterParse, List.append_assoc, hdrop] at hev
  rcases hev with h | h | h <;> subst h <;> exact ⟨rfl, rfl, rfl⟩

/-- Witness for C2 at a concrete non-project message. -/
theorem c2_witness :
    hasId stEmpty.processedIds msgW.id = false ∧
    envNP.classify msgW.id 0 = ClassifyResult.ok recNP ∧
    recNP.is_project = false ∧
    (processMessage envNP stEmpty msgW).summary.skipped = stEmpty.summary.skipped + 1 :=
  ⟨by decide, rfl, rfl,
   (c2_not_project_no_action envNP stEmpty msgW recNP (by decide) rfl rfl).1⟩

/-- C3 counterexample: the claim says stacked reply/forward markers are
all stripped, but the anchored `re.sub` strips only the first one, so
`"Fwd: FW: Invoice"` does not clean to `"Invoice"`. -/
theorem c3_counterexample : clean_subject "Fwd: FW: Invoice" ≠ "Invoice" := by decide

/-- C3 amended: title derivation strips exactly one leading reply/forward
marker (`re:`/`fwd:`/`fw:`, case-insensitive) together with the
whitespace after it, then trims; stacked markers are not stripped, so
`"Fwd: FW: Invoice"` cleans to `"FW: Invoice"`. -/
theorem c3_amended_first_marker_only :
    clean_subject "Re: Logo Design" = "Logo Design" ∧
    clean_subject "Fwd: FW: Invoice" = "FW: Invoice" ∧
    clean_subject "re:Invoice" = "Invoice" ∧
    clean_subject "  Plain subject  " = "Plain subject" :=
  ⟨by decide, by decide, by decide, by decide⟩

/-- C4: URL routing — an allow-listed or dropbox URL is downloaded and on
success staged under the attachments folder; a URL matching neither is
kept as a link with no fetch attempted; a failed download of an
allow-listed URL falls back to the link list. -/
theorem c4_url_routing (env : Env) (folder u : String) :
    (∀ fname, shouldDownload u = true → env.urlFetch u = (true, fname) →
      routeUrl env folder u =
        ([Event.downloadCall u,
          Event.logEvt ("Downloaded link to: " ++ (folder ++ "/" ++ fname))],
         [folder ++ "/" ++ fname], [])) ∧
    (shouldDownload u = false → routeUrl env folder u = ([], [], [u])) ∧
    (∀ r, shouldDownload u = true → env.urlFetch u = (false, r) →
      routeUrl env folder u =
        ([Event.downloadCall u,
          Event.logEvt ("Link download failed (" ++ u ++ "): " ++ r)],
         [], [u])) ∧
    shouldDownload "https://cdn.example.com/report.pdf" = true ∧
    shouldDownload "https://dropbox.com/s/abc/logo" = true ∧
    shouldDownload "https://example.com/page" = false := by
  refine ⟨?_, ?_, ?_, by decide, by decide, by decide⟩
  · intro fname hs hf
    simp [routeUrl, hs, hf]
  · intro hs
    simp [routeUrl, hs]
  · intro r hs hf
    simp [routeUrl, hs, hf]

/-- Witness for C4 at concrete URLs in succeeding and failing
environments. -/
theorem c4_witness :
    (shouldDownload "https://cdn.example.com/report.pdf" = true ∧
     envW.urlFetch "https://cdn.example.com/report.pdf" = (true, "logo.pdf") ∧
     routeUrl envW "data/projects/p/attachments" "https://cdn.example.com/report.pdf" =
       ([Event.downloadCall "https://cdn.example.com/report.pdf",
         Event.logEvt "Downloaded link to: data/projects/p/attachments/logo.pdf"],
        ["data/projects/p/attachments/logo.pdf"], [])) ∧
    (shouldDownload "https://example.com/page" = false ∧
     routeUrl envW "data/projects/p/attachments" "https://example.com/page" =
       ([], [], ["https://example.com/page"])) ∧
    routeUrl envFail "data/projects/p/attachments" "https://cdn.example.com/report.pdf" =
      ([Event.downloadCall "https://cdn.example.com/report.pdf",
        Event.logEvt "Link download failed (https://cdn.example.com/report.pdf): HTTP 404"],
       [], ["https://cdn.example.com/report.pdf"]) :=
  ⟨⟨by decide, rfl,
    (c4_url_routing envW "data/projects/p/attachments"
      "https://cdn.example.com/report.pdf").1 "logo.pdf" (by decide) rfl⟩,
   ⟨by decide,
    (c4_url_routing envW "data/projects/p/attachments"
      "https://example.com/page").2.1 (by decide)⟩,
   (c4_url_routing envFail "data/projects/p/attachments"
      "https://cdn.example.com/report.pdf").2.2.1 "HTTP 404" (by decide) rfl⟩

/-- C5: a rate-shaped classifier failure triggers exactly one retry after
the configured sleep (two classifier calls in total, whatever the retry's
outcome); a failed retry leaves the message uninserted with no board
call; a non-rate failure gets no retry (one classifier call); and in
every case the id was added to the processed set, so later passes skip
it. -/
theorem c5_retry_law (env : Env) (st : PassState) (e : Message) (m : String)
    (hfresh : hasId st.processedIds e.id = false)
    (h0 : env.classify e.id 0 = ClassifyResult.err m) :
    (containsSub (lowerStr m) "rate" = true →
      countClassifyCalls e.id ((processMessage env st e).trace.drop st.trace.length) = 2 ∧
      Event.sleepEvt env.delaySeconds ∈ (processMessage env st e).trace.drop st.trace.length ∧
      (∀ m2, env.classify e.id 1 = ClassifyResult.err m2 →
        (processMessage env st e).summary.inserted = st.summary.inserted ∧
        ∀ ev ∈ (processMessage env st e).trace.drop st.trace.length,
          isBoardCall ev = false)) ∧
    (containsSub (lowerStr m) "rate" = false →
      countClassifyCalls e.id ((processMessage env st e).trace.drop st.trace.length) = 1 ∧
      (processMessage env st e).summary.inserted = st.summary.inserted) ∧
    hasId (processMessage env st e).processedIds e.id = true := by
  have hdrop : ∀ t : List Event, (st.trace ++ t).drop st.trace.length = t :=
    fun t => by simp
  refine ⟨?_, ?_, ?_⟩
  · intro hrate
    rcases h1 : env.classify e.id 1 with pr | m2
    · rw [processMessage_rate_ok_eq env st e m pr hfresh h0 hrate h1,
          afterClassify_trace_decomp]
      refine ⟨?_, ?_, ?_⟩
      · simp only [msAfterRetry, List.append_assoc, List.cons_append,
          List.singleton_append, List.nil_append]
        rw [hdrop]
        simp [countClassifyCalls_cons, isClassifyCallFor, afterClassifyExtra_count_zero]
      · simp only [msAfterRetry, List.append_assoc, List.cons_append,
          List.singleton_append, List.nil_append]
        rw [hdrop]
        simp
      · intro m2 hm2
        exact absurd hm2 (by simp)
    · rw [processMessage_rate_fail_eq env st e m m2 hfresh h0 hrate h1]
      refine ⟨?_, ?_, ?_⟩
      · rw [hdrop]
        simp [countClassifyCalls_cons, isClassifyCallFor, countClassifyCalls]
      · rw [hdrop]
        simp
      · intro m2' _
        refine ⟨rfl, ?_⟩
        intro ev hev
        rw [hdrop] at hev
        simp at hev
        rcases hev with h | h | h | h | h | h | h <;> subst h <;> rfl
  · intro hr
    rw [processMessage_norate_eq env st e m hfresh h0 hr]
    refine ⟨?_, rfl⟩
    rw [hdrop]
    simp [countClassifyCalls_cons, isClassifyCallFor, countClassifyCalls]
  · by_cases hrate : containsSub (lowerStr m) "rate" = true
    · rcases h1 : env.classify e.id 1 with pr | m2
      · rw [processMessage_rate_ok_eq env st e m pr hfresh h0 hrate h1]
        exact hasId_append_self _ _
      · rw [processMessage_rate_fail_eq env st e m m2 hfresh h0 hrate h1]
        exact hasId_append_self _ _
    · have hr' : containsSub (lowerStr m) "rate" = false := by simpa using hrate
      rw [processMessage_norate_eq env st e m hfresh h0 hr']
      exact hasId_append_self _ _

/-- Witness for C5 at a concrete rate-failing-then-succeeding
environment. -/
theorem c5_witness :
    hasId stEmpty.processedIds msgW.id = false ∧
    envW.classify msgW.id 0 = ClassifyResult.err "Rate limit exceeded" ∧
    containsSub (lowerStr "Rate limit exceeded") "rate" = true ∧
    countClassifyCalls msgW.id
      ((processMessage envW stEmpty msgW).trace.drop stEmpty.trace.length) = 2 ∧
    hasId (processMessage envW stEmpty msgW).processedIds msgW.id = true :=
  ⟨by decide, rfl, by decide,
   ((c5_retry_law envW stEmpty msgW "Rate limit exceeded" (by decide) rfl).1
      (by decide)).1,
   (c5_retry_law envW stEmpty msgW "Rate limit exceeded" (by decide) rfl).2.2⟩

/-- C6 counterexample: with no unresolved links the `Links:` section is
omitted from the description entirely, not rendered empty as the claim
requires of every section. -/
theorem c6_counterexample :
    containsSub
      (composeDescription ⟨true, "P", "C", "I", "D", []⟩ "sender" [] "/abs")
      "Links:" = false := by decide

/-- C6 amended: the description always carries the client, instructions,
due-date, and storage-folder sections in that order, blank-line joined,
with empty fields rendered as empty text (the client field falling back
to the sender); the links section — header plus one line per URL —
appears exactly when at least one unresolved link exists, and is omitted
otherwise. -/
theorem c6_amended_description_format (pr : ParsedRecord) (sender folderAbs : String) :
    (descLinesOf pr sender [] folderAbs =
      ["Client: " ++ (if pr.client_name = "" then sender else pr.client_name),
       "Instructions: " ++ trimStr pr.instructions,
       "Due Date: " ++ pr.due_date,
       "Stored files folder: " ++ folderAbs]) ∧
    (∀ l ls, descLinesOf pr sender (l :: ls) folderAbs =
      ["Client: " ++ (if pr.client_name = "" then sender else pr.client_name),
       "Instructions: " ++ trimStr pr.instructions,
       "Due Date: " ++ pr.due_date,
       "Links:"] ++ (l :: ls) ++ ["Stored files folder: " ++ folderAbs]) ∧
    (∀ links, ("Due Date: " ++ pr.due_date) ∈ descLinesOf pr sender links folderAbs) ∧
    (∀ links, composeDescription pr sender links folderAbs =
      joinWith "\n\n" (descLinesOf pr sender links folderAbs)) := by
  refine ⟨rfl, fun l ls => ?_, fun links => ?_, fun links => rfl⟩
  · simp [descLinesOf]
  · cases links <;> simp [descLinesOf]

/-- C7: a failed mailbox fetch aborts the pass before any message is
touched: the returned summary has one error, all other counters zero,
exactly one log entry, the dedup set unchanged, and — the pass being a
total function — nothing propagates to the caller. -/
theorem c7_fetch_failure_aborts (env : Env) (msg : String) (ids0 : List String) :
    process_emails_once env (Except.error msg) ids0 =
      { processedIds := ids0,
        summary := { fetched := 0, parsed := 0, inserted := 0, skipped := 0, errors := 1 },
        trace := [Event.logEvt ("Failed to fetch emails: " ++ msg)] } := rfl

/-- C8: the extension allow-list is matched as a substring anywhere in
the lowercased URL, so any URL containing an allow-listed extension gets
a download attempt. -/
theorem c8_extension_substring (env : Env) (folder u ext : String)
    (h1 : ext ∈ allowedExts) (h2 : containsSub (lowerStr u) ext = true) :
    shouldDownload u = true ∧
    Event.downloadCall u ∈ (routeUrl env folder u).1 := by
  have hs : shouldDownload u = true := by
    simp [shouldDownload]
    exact Or.inl ⟨ext, h1, h2⟩
  refine ⟨hs, ?_⟩
  rcases hf : env.urlFetch u with ⟨b, s⟩
  cases b <;> simp [routeUrl, hs, hf]

/-- Whether `s` ends with `p` (Python `str.endswith`), used to observe
that a matched URL need not end in the extension. -/
def endsWithStr (s p : String) : Bool := listHasPre p.data.reverse s.data.reverse

/-- Witness for C8 at a URL that contains `.pdf` but does not end in
it. -/
theorem c8_witness :
    (".pdf" ∈ allowedExts ∧
     containsSub (lowerStr "https://example.com/.pdf-archive/page") ".pdf" = true ∧
     endsWithStr "https://example.com/.pdf-archive/page" ".pdf" = false) ∧
    shouldDownload "https://example.com/.pdf-archive/page" = true ∧
    Event.downloadCall "https://example.com/.pdf-archive/page" ∈
      (routeUrl envW "f" "https://example.com/.pdf-archive/page").1 :=
  ⟨⟨by decide, by decide, by decide⟩,
   (c8_extension_substring envW "f" "https://example.com/.pdf-archive/page" ".pdf"
      (by decide) (by decide)).1,
   (c8_extension_substring envW "f" "https://example.com/.pdf-archive/page" ".pdf"
      (by decide) (by decide)).2⟩

/-- C9: attaching files and attaching links to a created card are
mutually exclusive: with at least one staged file, every staged file gets
an attach-file call and no attach-URL call happens; with no staged file,
every kept link gets an attach-URL call and no attach-file call
happens. -/
theorem c9_attach_exclusive (env : Env) (cardId : String) (files links : List String) :
    (files ≠ [] →
      (∀ fp ∈ files,
        Event.attachFileCall cardId fp ∈ attachPhaseEvents env cardId files links) ∧
      (∀ ev ∈ attachPhaseEvents env cardId files links, isAttachUrlEvt ev = false)) ∧
    (files = [] →
      (∀ l ∈ links,
        Event.attachUrlCall cardId l ∈ attachPhaseEvents env cardId files links) ∧
      (∀ ev ∈ attachPhaseEvents env cardId files links, isAttachFileEvt ev = false)) := by
  constructor
  · intro hne
    have hno : files.isEmpty = false := by
      cases files with
      | nil => exact absurd rfl hne
      | cons a t => rfl
    constructor
    · intro fp hfp
      unfold attachPhaseEvents
      rw [hno]
      simp only [Bool.false_eq_true, if_false]
      exact List.mem_flatMap.mpr ⟨fp, hfp, by simp⟩
    · intro ev hev
      unfold attachPhaseEvents at hev
      rw [hno] at hev
      simp only [Bool.false_eq_true, if_false] at hev
      rcases List.mem_flatMap.mp hev with ⟨fp, _, hx⟩
      simp at hx
      rcases hx with h | h <;> subst h <;> rfl
  · intro he
    subst he
    constructor
    · intro l hl
      unfold attachPhaseEvents
      simp only [List.isEmpty_nil, if_true]
      exact List.mem_flatMap.mpr ⟨l, hl, by simp⟩
    · intro ev hev
      unfold attachPhaseEvents at hev
      simp only [List.isEmpty_nil, if_true] at hev
      rcases List.mem_flatMap.mp hev with ⟨l, _, hx⟩
      simp at hx
      rcases hx with h | h <;> subst h <;> rfl

/-- Witness for C9 at concrete staged-file and link lists. -/
theorem c9_witness :
    ((["f1"] : List String) ≠ [] ∧
     Event.attachFileCall "card1" "f1" ∈ attachPhaseEvents envW "card1" ["f1"] ["l1"] ∧
     (∀ ev ∈ attachPhaseEvents envW "card1" ["f1"] ["l1"], isAttachUrlEvt ev = false)) ∧
    (Event.attachUrlCall "card1" "l1" ∈ attachPhaseEvents envW "card1" [] ["l1"] ∧
     (∀ ev ∈ attachPhaseEvents envW "card1" [] ["l1"], isAttachFileEvt ev = false)) :=
  ⟨⟨by decide,
    ((c9_attach_exclusive envW "card1" ["f1"] ["l1"]).1 (by decide)).1 "f1" (by decide),
    ((c9_attach_exclusive envW "card1" ["f1"] ["l1"]).1 (by decide)).2⟩,
   ⟨((c9_attach_exclusive envW "card1" [] ["l1"]).2 rfl).1 "l1" (by decide),
    ((c9_attach_exclusive envW "card1" [] ["l1"]).2 rfl).2⟩⟩

/-- C10: after a rate-shaped first failure, a failed retry leaves the
error counter up by exactly two; a successful retry leaves it up by
exactly one — shown for the skip path and, with an always-succeeding card
endpoint, for the path that goes on to insert a card. -/
theorem c10_error_counting (env : Env) (st : PassState) (e : Message) (m : String)
    (hfresh : hasId st.processedIds e.id = false)
    (h0 : env.classify e.id 0 = ClassifyResult.err m)
    (hrate : containsSub (lowerStr m) "rate" = true) :
    (∀ m2, env.classify e.id 1 = ClassifyResult.err m2 →
      (processMessage env st e).summary.errors = st.summary.errors + 2) ∧
    (∀ pr, env.classify e.id 1 = ClassifyResult.ok pr →
      (pr.is_project = false →
        (processMessage env st e).summary.errors = st.summary.errors + 1) ∧
      (∀ cid, pr.is_project = true → (∀ t d, env.createCard t d = (true, cid)) →
        (processMessage env st e).summary.errors = st.summary.errors + 1 ∧
        (processMessage env st e).summary.inserted = st.summary.inserted + 1)) := by
  constructor
  · intro m2 h1
    rw [processMessage_rate_fail_eq env st e m m2 hfresh h0 hrate h1]
  · intro pr h1
    constructor
    · intro hp
      rw [processMessage_rate_ok_eq env st e m pr hfresh h0 hrate h1,
          afterClassify_notProject env e (bodyTextOf e) pr _ hp]
      simp [msAfterRetry]
    · intro cid hp hcc
      have hsum := afterClassify_created env e (bodyTextOf e) pr
        (msAfterRetry env st e m) cid hp hcc
      rw [processMessage_rate_ok_eq env st e m pr hfresh h0 hrate h1]
      constructor
      · rw [hsum]
        simp [msAfterRetry]
      · rw [hsum]
        simp [msAfterRetry]

/-- Witness for C10 on the successful-retry path that inserts a card. -/
theorem c10_witness :
    hasId stEmpty.processedIds msgW.id = false ∧
    envW.classify msgW.id 0 = ClassifyResult.err "Rate limit exceeded" ∧
    containsSub (lowerStr "Rate limit exceeded") "rate" = true ∧
    (processMessage envW stEmpty msgW).summary.errors = stEmpty.summary.errors + 1 ∧
    (processMessage envW stEmpty msgW).summary.inserted = stEmpty.summary.inserted + 1 :=
  ⟨by decide, rfl, by decide,
   (((c10_error_counting envW stEmpty msgW "Rate limit exceeded" (by decide) rfl
        (by decide)).2 recW rfl).2 "card1" rfl (fun t d => rfl)).1,
   (((c10_error_counting envW stEmpty msgW "Rate limit exceeded" (by decide) rfl
        (by decide)).2 recW rfl).2 "card1" rfl (fun t d => rfl)).2⟩

end GmailAgent
